import Mathlib

/-!
Verification development for the PynelSAMU indicator/alert core
(`app/calculo_indicadores.py`, `app/cache_indicadores.py`,
`app/gerador_alertas.py`, `app/routes_alertas.py`).

Shallow embedding conventions:
* a pandas cell is `Cell`: missing (`na`, covering NaN/NaT), a string, a
  number (exact `Rat` standing in for float), or a datetime (`dt`, seconds
  since an epoch).  `pd.to_datetime(_, errors='coerce')` is modelled as
  succeeding exactly on `dt` cells, `pd.to_numeric(_, errors='coerce')` on
  `num` cells and on numeric strings;
* `datetime.now()` is an explicit `agora : Int` parameter (seconds);
* dictionaries `config.get(k, d)` become `Option` fields read with
  defaults, Python truthiness of strings/numbers is modelled by the
  `truthy*`/`or*` helpers.
-/

namespace Pynel

/-- Cell of the tabular dataset (a pandas object cell). -/
inductive Cell where
  | na : Cell
  | str : String → Cell
  | num : Rat → Cell
  | dt : Int → Cell
deriving DecidableEq

/-- A row maps column names to cells (unlisted columns read as `na`). -/
abbrev Row := List (String × Cell)

/-- DataFrame: a column list plus rows. -/
structure DF where
  cols : List String
  rows : List Row
deriving DecidableEq

/-- Reads one cell of a row; a column missing from the row is `na`. -/
def getCell (r : Row) (c : String) : Cell :=
  match r.find? (fun p => p.1 == c) with
  | some p => p.2
  | none => .na

/-- Model of `pd.to_datetime(cell, errors='coerce')`: only `dt` cells parse. -/
def cellToDT : Cell → Option Int
  | .dt t => some t
  | _ => none

/-- Value of a digit string. -/
def digitsToNat (l : List Char) : Nat :=
  l.foldl (fun acc c => acc * 10 + (c.toNat - 48)) 0

/-- Kernel-computable lower-casing (model of `str.lower()`). -/
def toLowerStr (s : String) : String :=
  ⟨s.data.map Char.toLower⟩

/-- Kernel-computable whitespace trim (model of `str.strip()`). -/
def trimStr (s : String) : String :=
  ⟨((s.data.dropWhile Char.isWhitespace).reverse.dropWhile Char.isWhitespace).reverse⟩

/-- Kernel-computable suffix test (model of `str.endswith`). -/
def endsWithStr (s t : String) : Bool :=
  t.data.reverse.isPrefixOf s.data.reverse

/-- Kernel-computable truncation of the last `n` characters. -/
def dropRightStr (s : String) (n : Nat) : String :=
  ⟨s.data.take (s.data.length - n)⟩

/-- Model of Python `float(s)` / numeric-string coercion, restricted to the
decimal fragment `[+-]?digits[.digits]`. -/
def parseRat (s : String) : Option Rat :=
  let l := (trimStr s).data
  let signed : Bool × List Char :=
    match l with
    | '-' :: rest => (true, rest)
    | '+' :: rest => (false, rest)
    | _ => (false, l)
  let intPart := signed.2.takeWhile Char.isDigit
  let rest := signed.2.dropWhile Char.isDigit
  match rest with
  | [] =>
    if intPart.isEmpty then none
    else some (cond signed.1 (-(digitsToNat intPart : Rat)) (digitsToNat intPart))
  | '.' :: fracPart =>
    if fracPart.all Char.isDigit && !(intPart.isEmpty && fracPart.isEmpty) then
      let n : Rat := (digitsToNat (intPart ++ fracPart) : Nat)
      let v := n / ((10 : Rat) ^ fracPart.length)
      some (cond signed.1 (-v) v)
    else none
  | _ => none

/-- Model of `pd.to_numeric(cell, errors='coerce')`. -/
def cellToNum : Cell → Option Rat
  | .num q => some q
  | .str s => parseRat s
  | _ => none

/-- Decimal rendering of an integral rational, `str(float)`-style (`5.0`).
Non-integral values are rendered abstractly; no claim depends on them. -/
def ratToStr (q : Rat) : String :=
  if q.den = 1 then toString q.num ++ ".0" else toString q

/-- Model of `serie.astype(str)` applied to one cell (`NaN` prints `nan`). -/
def cellToStr : Cell → String
  | .na => "nan"
  | .str s => s
  | .num q => ratToStr q
  | .dt t => toString t

/-- Checks whether `pat` occurs as a contiguous run inside `hay`
(the pattern of `str.contains` is treated literally, not as a regex). -/
def subOf (pat : List Char) : List Char → Bool
  | [] => pat.isEmpty
  | c :: tl => pat.isPrefixOf (c :: tl) || subOf pat tl

/-- Case-sensitive substring test on strings. -/
def strContains (hay pat : String) : Bool :=
  subOf pat.toList hay.toList

/-- All-false row mask of a DataFrame. -/
def allFalse (df : DF) : List Bool :=
  df.rows.map (fun _ => false)

/-- Embedding of `aplicar_condicao` (calculo_indicadores.py:16-75): one
condition to a boolean row mask.  Unknown column gives all-false; a numeric
operator whose value does not parse raises in Python and is caught, giving
all-false; an unknown operator falls back to `==`. -/
def aplicar_condicao (df : DF) (coluna operador valor : String) : List Bool :=
  if coluna ∉ df.cols then allFalse df
  else
    let m : (Cell → Bool) → List Bool := fun p => df.rows.map (fun r => p (getCell r coluna))
    if operador = "==" then m (fun c => c == .str valor)
    else if operador = "!=" then m (fun c => c != .str valor)
    else if operador = ">" then
      match parseRat valor with
      | some v => m (fun c => match cellToNum c with | some q => decide (v < q) | none => false)
      | none => allFalse df
    else if operador = "<" then
      match parseRat valor with
      | some v => m (fun c => match cellToNum c with | some q => decide (q < v) | none => false)
      | none => allFalse df
    else if operador = ">=" then
      match parseRat valor with
      | some v => m (fun c => match cellToNum c with | some q => decide (v ≤ q) | none => false)
      | none => allFalse df
    else if operador = "<=" then
      match parseRat valor with
      | some v => m (fun c => match cellToNum c with | some q => decide (q ≤ v) | none => false)
      | none => allFalse df
    else if operador = "in" then m (fun c => c == .str valor)
    else if operador = "not in" then m (fun c => !(c == .str valor))
    else if operador = "contains" then
      m (fun c => strContains (toLowerStr (cellToStr c)) (toLowerStr valor))
    else if operador = "not contains" then
      m (fun c => !(strContains (toLowerStr (cellToStr c)) (toLowerStr valor)))
    else if operador = "startswith" then m (fun c => valor.data.isPrefixOf (cellToStr c).data)
    else if operador = "endswith" then m (fun c => endsWithStr (cellToStr c) valor)
    else if operador = "is null" then m (fun c => c == .na)
    else if operador = "is not null" then m (fun c => !(c == .na))
    else m (fun c => c == .str valor)

/-- Embedding of `filtrar_ultimas_horas` (calculo_indicadores.py:78-115):
keep rows whose date column is within the last `horas` hours. -/
def filtrar_ultimas_horas (df : DF) (colunaData : String) (horas : Nat) (agora : Int) : DF :=
  if colunaData ∉ df.cols then df
  else
    let limite : Int := agora - (horas : Int) * 3600
    { cols := df.cols
      rows := df.rows.filter (fun r =>
        match cellToDT (getCell r colunaData) with
        | some t => decide (limite ≤ t)
        | none => false) }

/-- One declarative filter condition as configured (all fields may be
absent; empty strings are falsy, like in Python). -/
structure Cond where
  coluna : Option String
  operador : Option String
  valor : String
  conector : Option String
deriving DecidableEq

/-- Python truthiness of an optional string. -/
def truthyStr : Option String → Bool
  | some s => s != ""
  | none => false

/-- Python truthiness of an optional number. -/
def truthyNat : Option Nat → Bool
  | some n => n != 0
  | none => false

/-- Python `o or d` for strings. -/
def orStr (o : Option String) (d : String) : String :=
  match o with
  | some s => if s = "" then d else s
  | none => d

/-- Python `o or d` for naturals (`0` is falsy). -/
def orNat (o : Option Nat) (d : Nat) : Nat :=
  match o with
  | some n => if n = 0 then d else n
  | none => d

/-- Python `a or b` on two optional strings, collapsing falsy to `none`. -/
def orOptStr (a b : Option String) : Option String :=
  if truthyStr a then a else if truthyStr b then b else none

/-- A validated condition of the per-condition-connector mode
(calculo_indicadores.py:138-148). -/
structure CondV where
  coluna : String
  operador : String
  valor : String
  conector : String
deriving DecidableEq

/-- Validation step of the per-condition-connector mode: drop conditions
without a column, default the operator to `==` and the connector to
`and` (lower-cased). -/
def validarCondicoes (cs : List Cond) : List CondV :=
  cs.filterMap (fun c =>
    match c.coluna with
    | some col =>
      if col = "" then none
      else some { coluna := col, operador := c.operador.getD "==",
                  valor := c.valor, conector := toLowerStr (orStr c.conector "and") }
    | none => none)

/-- Validation step of the legacy single-operator mode
(calculo_indicadores.py:167). -/
def validarCondicoesLeg (cs : List Cond) : List (String × String × String) :=
  cs.filterMap (fun c =>
    match c.coluna with
    | some col => if col = "" then none else some (col, c.operador.getD "==", c.valor)
    | none => none)

/-- Mask of one validated condition. -/
def maskDe (df : DF) (c : CondV) : List Bool :=
  aplicar_condicao df c.coluna c.operador c.valor

/-- One connector update of the accumulator (calculo_indicadores.py:157-163):
`or` is union, `if` is `(NOT m) OR (m AND acc)`, anything else is `and`. -/
def connStep (conn : String) (acc m : Bool) : Bool :=
  if conn = "or" then acc || m
  else if conn = "if" then (!m) || (m && acc)
  else acc && m

/-- Keep the rows whose mask entry is true. -/
def filterByMask (rows : List Row) (mask : List Bool) : List Row :=
  ((rows.zip mask).filter (fun p => p.2)).map (fun p => p.1)

/-- Pointwise combination of two masks under a connector. -/
def zipConn (conn : String) (acc m : List Bool) : List Bool :=
  (acc.zip m).map (fun p => connStep conn p.1 p.2)

/-- Legacy `and` mode: sequential filtering, one condition at a time
(calculo_indicadores.py:185-187). -/
def seqFiltrar (df : DF) : List (String × String × String) → DF
  | [] => df
  | t :: rest => seqFiltrar ⟨df.cols, filterByMask df.rows (aplicar_condicao df t.1 t.2.1 t.2.2)⟩ rest

/-- Detection of the per-condition-connector mode
(calculo_indicadores.py:134). -/
def temConector (cs : List Cond) : Bool :=
  cs.any (fun c => truthyStr c.coluna && truthyStr c.conector)

/-- Embedding of `filtrar_dataframe` (calculo_indicadores.py:118-189). -/
def filtrar_dataframe (df : DF) (condicoes : List Cond)
    (filtroUltimasHoras : Option Nat) (colunaDataFiltro : Option String)
    (agora : Int) (operadorCondicoes : String := "and") : DF :=
  let df1 :=
    if truthyNat filtroUltimasHoras && truthyStr colunaDataFiltro then
      filtrar_ultimas_horas df (colunaDataFiltro.getD "") (filtroUltimasHoras.getD 0) agora
    else df
  if condicoes.isEmpty then df1
  else if temConector condicoes then
    match validarCondicoes condicoes with
    | [] => df1
    | c0 :: rest =>
      let mask := rest.foldl (fun acc c => zipConn c.conector acc (maskDe df1 c)) (maskDe df1 c0)
      { cols := df1.cols, rows := filterByMask df1.rows mask }
  else
    match validarCondicoesLeg condicoes with
    | [] => df1
    | first :: restL =>
      let op := toLowerStr (orStr (some operadorCondicoes) "and")
      if op = "or" then
        let mask := (first :: restL).foldl
          (fun acc t => (acc.zip (aplicar_condicao df1 t.1 t.2.1 t.2.2)).map (fun p => p.1 || p.2))
          (df1.rows.map (fun _ => false))
        { cols := df1.cols, rows := filterByMask df1.rows mask }
      else if op = "if" then
        let gate := aplicar_condicao df1 first.1 first.2.1 first.2.2
        let resto := restL.foldl
          (fun acc t => (acc.zip (aplicar_condicao df1 t.1 t.2.1 t.2.2)).map (fun p => p.1 && p.2))
          (df1.rows.map (fun _ => true))
        let mask := (gate.zip resto).map (fun p => (!p.1) || (p.1 && p.2))
        { cols := df1.cols, rows := filterByMask df1.rows mask }
      else
        seqFiltrar df1 (first :: restL)

/-- Sum of a list of rationals. -/
def listSum (l : List Rat) : Rat :=
  l.foldl (· + ·) 0

/-- Mean of a list of rationals (callers guard non-emptiness). -/
def listMean (l : List Rat) : Rat :=
  listSum l / (l.length : Rat)

/-- Minimum of a list of rationals (0 on the empty list, never used there). -/
def listMin : List Rat → Rat
  | [] => 0
  | x :: xs => xs.foldl min x

/-- Maximum of a list of rationals (0 on the empty list, never used there). -/
def listMax : List Rat → Rat
  | [] => 0
  | x :: xs => xs.foldl max x

/-- Insertion into a sorted list. -/
def insertSorted (x : Rat) : List Rat → List Rat
  | [] => [x]
  | y :: ys => if x ≤ y then x :: y :: ys else y :: insertSorted x ys

/-- Insertion sort. -/
def sortRat (l : List Rat) : List Rat :=
  l.foldr insertSorted []

/-- Median in the pandas sense: middle element, or mean of the two middle
elements for an even length. -/
def listMedian (l : List Rat) : Rat :=
  let s := sortRat l
  let n := s.length
  if n = 0 then 0
  else if n % 2 = 1 then s.getD (n / 2) 0
  else (s.getD (n / 2 - 1) 0 + s.getD (n / 2) 0) / 2

/-- Python `round` to an integer: banker's rounding (ties to even). -/
def roundHalfEven (x : Rat) : Int :=
  let f := x.floor
  let d := x - (f : Rat)
  if d < 1/2 then f
  else if 1/2 < d then f + 1
  else if f % 2 = 0 then f else f + 1

/-- Python `round(x, k)`. -/
def roundTo (k : Nat) (x : Rat) : Rat :=
  (roundHalfEven (x * (10 : Rat) ^ k) : Rat) / (10 : Rat) ^ k

/-- Conversion of a duration in seconds to the requested unit
(calculo_indicadores.py:225-234; unknown units default to minutes). -/
def convUnidade (unidade : String) (secs : Rat) : Rat :=
  if unidade = "segundos" then secs
  else if unidade = "minutos" then secs / 60
  else if unidade = "horas" then secs / 3600
  else if unidade = "dias" then secs / 86400
  else secs / 60

/-- Embedding of `calcular_diferenca_tempo` (calculo_indicadores.py:237-269):
per-row `end − start` in the requested unit, `none` where a date fails to
parse, `[]` when a column is missing. -/
def calcular_diferenca_tempo (df : DF) (colunaInicio colunaFim unidade : String) :
    List (Option Rat) :=
  if colunaInicio ∉ df.cols ∨ colunaFim ∉ df.cols then []
  else df.rows.map (fun r =>
    match cellToDT (getCell r colunaInicio), cellToDT (getCell r colunaFim) with
    | some a, some b => some (convUnidade unidade ((b - a : Int) : Rat))
    | _, _ => none)

/-- Embedding of `calcular_diferenca_ate_agora`
(calculo_indicadores.py:192-234): `now − start` in the requested unit over
the rows whose date parses; `[]` when the column is missing. -/
def calcular_diferenca_ate_agora (df : DF) (colunaData unidade : String) (agora : Int) :
    List Rat :=
  if colunaData ∉ df.cols then []
  else (df.rows.filterMap (fun r => cellToDT (getCell r colunaData))).map
    (fun t => convUnidade unidade ((agora - t : Int) : Rat))

/-- Helper of `drop_duplicates(keep='first')`: keep a row when its key cell
was not seen before. -/
def dedupGo (col : String) : List Row → List Cell → List Row
  | [], _ => []
  | r :: rest, seen =>
    let k := getCell r col
    if k ∈ seen then dedupGo col rest seen
    else r :: dedupGo col rest (k :: seen)

/-- Model of `df.drop_duplicates(subset=[col], keep='first')`. -/
def drop_duplicates (df : DF) (col : String) : DF :=
  ⟨df.cols, dedupGo col df.rows []⟩

/-- Fixed-width epoch-aligned bucket counts over a list of timestamps,
covering the observed range contiguously (model of the
`groupby(pd.Grouper(freq=...)).count()` sampling used for the count
indicator's min/max). -/
def bucketCounts (ts : List Int) (width : Int) : List Nat :=
  match ts with
  | [] => []
  | t :: _ =>
    let ks := ts.map (fun x => x / width)
    let kmin := ks.foldl min (t / width)
    let kmax := ks.foldl max (t / width)
    (List.range (kmax - kmin + 1).toNat).map
      (fun i => ks.countP (fun k => k == kmin + (i : Int)))

/-- Indicator configuration record (the dictionary read by
`calcular_indicador`; absent keys are `none`). -/
structure IndConfig where
  nome : Option String
  condicoes : List Cond
  tipo_calculo : Option String
  coluna_data_inicio : Option String
  coluna_data_fim : Option String
  unidade : Option String
  filtro_ultimas_horas : Option Nat
  coluna_data_filtro : Option String
  contagem_por : Option String
  coluna_ocorrencia : Option String
  meta_valor : Option Rat
  meta_operador : Option String
  grafico_ultimas_horas : Option Nat
  grafico_intervalo_minutos : Option Nat
  tendencia_inversa : Bool
deriving DecidableEq

/-- Result record of `calcular_indicador` (keys that a branch does not set
are `none`). -/
structure Resultado where
  nome : String
  tipo_calculo : Option String
  valor : Option Rat
  total_registros : Nat
  registros_filtrados : Nat
  minimo : Option Rat
  maximo : Option Rat
  mediana : Option Rat
  unidade : Option String
  erro : Option String
deriving DecidableEq

/-- Occurrence dedup step shared by the calculators
(calculo_indicadores.py:311-312). -/
def dedupSeOcorrencia (contagemPor : String) (colunaOcorrencia : Option String) (d : DF) : DF :=
  match colunaOcorrencia with
  | some oc =>
    if contagemPor = "ocorrencia" ∧ oc ≠ "" ∧ oc ∈ d.cols then drop_duplicates d oc else d
  | none => d

/-- Embedding of `calcular_indicador` (calculo_indicadores.py:272-458).
The Python `try/except` around the calculation is modelled by explicit
error results: the only raising access is `df_filtrado[coluna]` with a
missing column in the `soma`/`media` branches, whose `KeyError` text
becomes the stored error string. -/
def calcular_indicador (config : IndConfig) (df : DF) (agora : Int) : Resultado :=
  let nome := config.nome.getD "Indicador"
  let tipo_calculo := config.tipo_calculo.getD "diferenca_tempo"
  let unidade := config.unidade.getD "minutos"
  let contagem_por := orStr config.contagem_por "linhas"
  let meta_operador := trimStr (orStr config.meta_operador "<=")
  let df_filtrado0 := filtrar_dataframe df config.condicoes config.filtro_ultimas_horas
    config.coluna_data_filtro agora
  let df_filtrado := dedupSeOcorrencia contagem_por config.coluna_ocorrencia df_filtrado0
  if df_filtrado.rows = [] then
    { nome := nome
      tipo_calculo := none
      valor := none
      total_registros := 0
      registros_filtrados := 0
      minimo := none
      maximo := none
      mediana := none
      unidade := none
      erro := some "Nenhum registro encontrado após aplicar filtros" }
  else
    let base : Resultado :=
      { nome := nome
        tipo_calculo := some tipo_calculo
        valor := none
        total_registros := df.rows.length
        registros_filtrados := df_filtrado.rows.length
        minimo := none
        maximo := none
        mediana := none
        unidade := none
        erro := none }
    if tipo_calculo = "diferenca_tempo" then
      if !(truthyStr config.coluna_data_inicio && truthyStr config.coluna_data_fim) then
        { base with erro := some "Colunas de data não especificadas" }
      else
        let valid := (calcular_diferenca_tempo df_filtrado (config.coluna_data_inicio.getD "")
          (config.coluna_data_fim.getD "") unidade).filterMap id
        if valid = [] then
          { base with erro := some "Nenhuma diferença de tempo válida encontrada" }
        else
          { base with
            valor := some (listMean valid)
            minimo := some (listMin valid)
            maximo := some (listMax valid)
            mediana := some (listMedian valid)
            unidade := some unidade }
    else if tipo_calculo = "diferenca_ate_agora" then
      if !truthyStr config.coluna_data_inicio then
        { base with erro := some "Coluna de data não especificada (tempo desde quando?)" }
      else
        let valid := calcular_diferenca_ate_agora df_filtrado
          (config.coluna_data_inicio.getD "") unidade agora
        if valid = [] then
          { base with erro := some "Nenhuma data válida encontrada na coluna" }
        else
          { base with
            valor := some (listMax valid)
            minimo := some (listMin valid)
            maximo := some (listMax valid)
            mediana := some (listMedian valid)
            unidade := some unidade }
    else if tipo_calculo = "contagem" then
      let cOpt := orOptStr config.coluna_data_filtro config.coluna_data_inicio
      let horas_graf := orNat config.grafico_ultimas_horas 12
      let intervalo := orNat config.grafico_intervalo_minutos 60
      let mm : Option Rat × Option Rat :=
        match cOpt with
        | some c =>
          if c ∈ df_filtrado.cols then
            let tsJanela := (df_filtrado.rows.filterMap
                (fun r => cellToDT (getCell r c))).filter
              (fun t => decide (agora - (horas_graf : Int) * 3600 ≤ t) && decide (t ≤ agora))
            match bucketCounts tsJanela ((intervalo : Int) * 60) with
            | [] => (none, none)
            | c0 :: cs => (some ((cs.foldl min c0 : Nat) : Rat), some ((cs.foldl max c0 : Nat) : Rat))
          else (none, none)
        | none => (none, none)
      { base with
        valor := some (df_filtrado.rows.length : Rat)
        unidade := some (orStr config.unidade "ocorrências")
        minimo := mm.1
        maximo := mm.2 }
    else if tipo_calculo = "soma" then
      if !truthyStr config.coluna_data_fim then
        { base with erro := some "Coluna para soma não especificada" }
      else if config.coluna_data_fim.getD "" ∉ df_filtrado.cols then
        { base with erro := some ("KeyError: " ++ config.coluna_data_fim.getD "") }
      else
        let valid := df_filtrado.rows.filterMap
          (fun r => cellToNum (getCell r (config.coluna_data_fim.getD "")))
        if valid = [] then
          { base with erro := some "Nenhum valor numérico válido encontrado" }
        else
          { base with valor := some (listSum valid), unidade := some unidade }
    else if tipo_calculo = "media" then
      if !truthyStr config.coluna_data_fim then
        { base with erro := some "Coluna para média não especificada" }
      else if config.coluna_data_fim.getD "" ∉ df_filtrado.cols then
        { base with erro := some ("KeyError: " ++ config.coluna_data_fim.getD "") }
      else
        let valid := df_filtrado.rows.filterMap
          (fun r => cellToNum (getCell r (config.coluna_data_fim.getD "")))
        if valid = [] then
          { base with erro := some "Nenhum valor numérico válido encontrado" }
        else
          { base with
            valor := some (listMean valid)
            minimo := some (listMin valid)
            maximo := some (listMax valid)
            mediana := some (listMedian valid)
            unidade := some unidade }
    else if tipo_calculo = "percentual_meta" then
      if !(truthyStr config.coluna_data_inicio && truthyStr config.coluna_data_fim) then
        { base with erro := some "Colunas de data não especificadas para % que atinge a meta" }
      else
        match config.meta_valor with
        | none => { base with erro := some "Valor da meta não especificado" }
        | some meta =>
          let unidade_medida := if unidade ≠ "" ∧ unidade ≠ "%" then unidade else "minutos"
          let valid := (calcular_diferenca_tempo df_filtrado (config.coluna_data_inicio.getD "")
            (config.coluna_data_fim.getD "") unidade_medida).filterMap id
          if valid = [] then
            { base with erro := some "Nenhuma diferença de tempo válida para calcular % na meta" }
          else
            let op := if meta_operador = "<=" ∨ meta_operador = ">=" then meta_operador else "<="
            let dentro := if op = "<=" then valid.countP (fun d => decide (d ≤ meta))
              else valid.countP (fun d => decide (meta ≤ d))
            let total := valid.length
            { base with
              valor := some (roundTo 2 (100 * (dentro : Rat) / (total : Rat)))
              unidade := some "%" }
    else
      { base with erro := some ("Tipo de cálculo \"" ++ tipo_calculo ++ "\" não implementado") }

/-- Result record of `calcular_variacao_percentual`. -/
structure VariacaoResultado where
  variacao_percentual : Option Rat
  tendencia : Option String
  valor_atual : Option Rat
  valor_anterior : Option Rat
deriving DecidableEq

/-- Rows of `df` whose date column lies in the closed interval `[lo, hi]`
(the boolean-mask windowing of calculo_indicadores.py:508-521). -/
def windowDF (df : DF) (c : String) (lo hi : Int) : DF :=
  ⟨df.cols, df.rows.filter (fun r =>
    match cellToDT (getCell r c) with
    | some t => decide (lo ≤ t) && decide (t ≤ hi)
    | none => false)⟩

/-- Metric value of one window, per calculation kind: the `try` block of
`calcular_variacao_percentual` (calculo_indicadores.py:536-579) applied to
one of the two windowed DataFrames. -/
def valorJanela (config : IndConfig) (d : DF) : Option Rat :=
  let tipo := config.tipo_calculo.getD "diferenca_tempo"
  let unidade := config.unidade.getD "minutos"
  let meta_operador := trimStr (orStr config.meta_operador "<=")
  let unidade_medida := if unidade ≠ "" ∧ unidade ≠ "%" then unidade else "minutos"
  if tipo = "diferenca_tempo" ∧ truthyStr config.coluna_data_inicio = true ∧
      truthyStr config.coluna_data_fim = true then
    if d.rows = [] then none
    else
      let valid := (calcular_diferenca_tempo d (config.coluna_data_inicio.getD "")
        (config.coluna_data_fim.getD "") unidade).filterMap id
      if valid = [] then none else some (listMean valid)
  else if tipo = "contagem" then
    some (d.rows.length : Rat)
  else if (tipo = "soma" ∨ tipo = "media") ∧ truthyStr config.coluna_data_fim = true then
    if d.rows ≠ [] ∧ config.coluna_data_fim.getD "" ∈ d.cols then
      let valid := d.rows.filterMap
        (fun r => cellToNum (getCell r (config.coluna_data_fim.getD "")))
      if valid = [] then none
      else some (if tipo = "soma" then listSum valid else listMean valid)
    else none
  else if tipo = "percentual_meta" ∧ truthyStr config.coluna_data_inicio = true ∧
      truthyStr config.coluna_data_fim = true ∧ config.meta_valor.isSome = true then
    match config.meta_valor with
    | none => none
    | some meta =>
      if d.rows = [] then none
      else
        let valid := (calcular_diferenca_tempo d (config.coluna_data_inicio.getD "")
          (config.coluna_data_fim.getD "") unidade_medida).filterMap id
        if valid = [] then none
        else
          let op := if meta_operador = "<=" ∨ meta_operador = ">=" then meta_operador else "<="
          let dentro := if op = "<=" then valid.countP (fun x => decide (x ≤ meta))
            else valid.countP (fun x => decide (meta ≤ x))
          some (roundTo 2 (100 * (dentro : Rat) / (valid.length : Rat)))
  else none

/-- Trend label (calculo_indicadores.py:590-594): direction inverted when
the indicator is lower-is-better. -/
def tendenciaDe (inversa : Bool) (atual anterior : Rat) : String :=
  if inversa then
    (if atual < anterior then "positiva" else if anterior < atual then "negativa" else "neutra")
  else
    (if anterior < atual then "positiva" else if atual < anterior then "negativa" else "neutra")

/-- Embedding of `calcular_variacao_percentual`
(calculo_indicadores.py:461-603). -/
def calcular_variacao_percentual (config : IndConfig) (df : DF) (agora : Int) :
    VariacaoResultado :=
  let filtro_ultimas_horas := orNat config.filtro_ultimas_horas 2
  let contagem_por := orStr config.contagem_por "linhas"
  let uma_hora_atras := agora - 3600
  let janelas : DF × DF :=
    match config.coluna_data_filtro with
    | some c =>
      if c ≠ "" ∧ c ∈ df.cols then
        (windowDF df c (agora - (filtro_ultimas_horas : Int) * 3600) agora,
         windowDF df c (uma_hora_atras - (filtro_ultimas_horas : Int) * 3600) uma_hora_atras)
      else (df, df)
    | none => (df, df)
  let df_atual := dedupSeOcorrencia contagem_por config.coluna_ocorrencia
    (filtrar_dataframe janelas.1 config.condicoes none none agora)
  let df_anterior := dedupSeOcorrencia contagem_por config.coluna_ocorrencia
    (filtrar_dataframe janelas.2 config.condicoes none none agora)
  match valorJanela config df_atual, valorJanela config df_anterior with
  | some a, some p =>
    if p ≠ 0 then
      { variacao_percentual := some (roundTo 1 ((a - p) / |p| * 100))
        tendencia := some (tendenciaDe config.tendencia_inversa a p)
        valor_atual := some a
        valor_anterior := some p }
    else
      { variacao_percentual := none
        tendencia := some "neutra"
        valor_atual := none
        valor_anterior := none }
  | _, _ =>
    { variacao_percentual := none
      tendencia := some "neutra"
      valor_atual := none
      valor_anterior := none }

/-- One chart point (timestamp in epoch seconds; the string labels of the
source are presentation only and not modelled). -/
structure Ponto where
  timestamp : Int
  valor : Option Rat
  registros : Nat
deriving DecidableEq

/-- Alignment of the chart start to a round boundary
(calculo_indicadores.py:677-679): zero seconds and round the minute down
to a multiple of the interval. -/
def alignMinutes (t : Int) (intervalo : Nat) : Int :=
  let minuto := t % 3600 / 60
  let minAlign := minuto / (intervalo : Int) * intervalo
  t - t % 3600 + minAlign * 60

/-- Embedding of `gerar_dados_grafico` (calculo_indicadores.py:627-820).
The `while ponto_atual <= limite_exibicao` loop is written in closed form
as a map over the grid indices (for a positive interval the iteration
count is `(limite − inicio) / passo + 1`). -/
def gerar_dados_grafico (config : IndConfig) (horas intervalo_minutos : Nat)
    (df : DF) (agora : Int) : List Ponto :=
  let tipo := config.tipo_calculo.getD "diferenca_tempo"
  let unidade := config.unidade.getD "minutos"
  let coluna_data_filtro := orOptStr config.coluna_data_filtro config.coluna_data_inicio
  let contagem_por := orStr config.contagem_por "linhas"
  let meta_operador := trimStr (orStr config.meta_operador "<=")
  let unidade_medida := if unidade ≠ "" ∧ unidade ≠ "%" then unidade else "minutos"
  let janela_media_horas := orNat config.filtro_ultimas_horas 2
  let data_inicial0 : Int := agora - (horas : Int) * 3600
  let data_inicial := if 0 < intervalo_minutos ∧ intervalo_minutos ≤ 60 then
    alignMinutes data_inicial0 intervalo_minutos else data_inicial0
  let df_base0 := filtrar_dataframe df config.condicoes none none agora
  if df_base0.rows = [] then []
  else
    match coluna_data_filtro with
    | none => []
    | some c =>
      if c ∉ df_base0.cols then []
      else
        let rowsDT := df_base0.rows.filterMap
          (fun r => (cellToDT (getCell r c)).map (fun t => (r, t)))
        if rowsDT = [] then []
        else
          let temCols := (tipo = "diferenca_tempo" ∨ tipo = "percentual_meta") ∧
            truthyStr config.coluna_data_inicio = true ∧ truthyStr config.coluna_data_fim = true ∧
            config.coluna_data_inicio.getD "" ∈ df_base0.cols ∧
            config.coluna_data_fim.getD "" ∈ df_base0.cols
          let temNum := (tipo = "media" ∨ tipo = "soma") ∧
            truthyStr config.coluna_data_fim = true ∧
            config.coluna_data_fim.getD "" ∈ df_base0.cols
          let dedupOc := contagem_por = "ocorrencia" ∧
            truthyStr config.coluna_ocorrencia = true ∧
            config.coluna_ocorrencia.getD "" ∈ df_base0.cols
          let passo := (intervalo_minutos : Int) * 60
          let limite := agora + passo
          let n := if data_inicial ≤ limite then ((limite - data_inicial) / passo).toNat + 1 else 0
          (List.range n).map (fun i =>
            let ponto := data_inicial + (i : Int) * passo
            let janela_inicio := if tipo = "contagem" then ponto - passo
              else ponto - (janela_media_horas : Int) * 3600
            let inWin := rowsDT.filter
              (fun rt => decide (janela_inicio ≤ rt.2) && decide (rt.2 ≤ ponto))
            let winRows := if dedupOc then
              dedupGo (config.coluna_ocorrencia.getD "") (inWin.map (fun rt => rt.1)) []
              else inWin.map (fun rt => rt.1)
            let registros := winRows.length
            let valor : Option Rat :=
              if registros = 0 then none
              else if tipo = "diferenca_tempo" ∧ temCols then
                let dif := winRows.filterMap (fun r =>
                  match cellToDT (getCell r (config.coluna_data_inicio.getD "")),
                    cellToDT (getCell r (config.coluna_data_fim.getD "")) with
                  | some a, some b => some (convUnidade unidade ((b - a : Int) : Rat))
                  | _, _ => none)
                if dif = [] then none else some (listMean dif)
              else if tipo = "contagem" then some (registros : Rat)
              else if tipo = "media" ∧ temNum then
                let sj := winRows.filterMap
                  (fun r => cellToNum (getCell r (config.coluna_data_fim.getD "")))
                if sj = [] then none else some (listMean sj)
              else if tipo = "soma" ∧ temNum then
                let sj := winRows.filterMap
                  (fun r => cellToNum (getCell r (config.coluna_data_fim.getD "")))
                if sj = [] then none else some (listSum sj)
              else if tipo = "percentual_meta" ∧ temCols ∧ config.meta_valor.isSome = true then
                let meta := config.meta_valor.getD 0
                let dif := winRows.filterMap (fun r =>
                  match cellToDT (getCell r (config.coluna_data_inicio.getD "")),
                    cellToDT (getCell r (config.coluna_data_fim.getD "")) with
                  | some a, some b => some (convUnidade unidade_medida ((b - a : Int) : Rat))
                  | _, _ => none)
                if dif = [] then none
                else
                  let op := if meta_operador = "<=" ∨ meta_operador = ">=" then meta_operador
                    else "<="
                  let dentro := if op = "<=" then dif.countP (fun x => decide (x ≤ meta))
                    else dif.countP (fun x => decide (meta ≤ x))
                  some (roundTo 2 (100 * (dentro : Rat) / (dif.length : Rat)))
              else none
            { timestamp := ponto, valor := valor, registros := registros })

/-! Result cache (`cache_indicadores.py`).  The recomputation body (loading
the dataset, evaluating every active indicator, optional parallelism) is
abstracted by the `fresh` parameter: the claims concern the hit condition,
the store, and invalidation, not the computed payload. -/

/-- Cached per-dashboard entry (cache_indicadores.py:20). -/
structure CacheEntry (α : Type) where
  indicadores : α
  arquivo_mtime : Int
  timestamp : Int
deriving DecidableEq

/-- Cached per-indicator chart entry (cache_indicadores.py:22). -/
structure GraficoEntry (β : Type) where
  resp : β
  arquivo_mtime : Int
deriving DecidableEq

/-- The two memo tables of the result cache. -/
structure CacheState (α β : Type) where
  cache : List ((Nat × String) × CacheEntry α)
  cacheGrafico : List (Nat × GraficoEntry β)
deriving DecidableEq

/-- Cache TTL (cache_indicadores.py:25). -/
def CACHE_TTL_SECONDS : Int := 300

/-- Embedding of `invalidate_cache` (cache_indicadores.py:39-50): clears
both memo tables unconditionally. -/
def invalidate_cache (_st : CacheState α β) : CacheState α β :=
  ⟨[], []⟩

/-- Dictionary lookup on the dashboard table. -/
def lookupCache (st : CacheState α β) (k : Nat × String) : Option (CacheEntry α) :=
  match st.cache.find? (fun p => p.1 == k) with
  | some p => some p.2
  | none => none

/-- Dictionary store on the dashboard table (replacing the key). -/
def storeCache (st : CacheState α β) (k : Nat × String) (e : CacheEntry α) :
    CacheState α β :=
  ⟨(k, e) :: st.cache.filter (fun p => !(p.1 == k)), st.cacheGrafico⟩

/-- Embedding of `get_or_calc_indicadores` (cache_indicadores.py:53-174):
returns the cached payload when the stored dataset mtime matches and the
entry is younger than the TTL, otherwise recomputes (`fresh`) and stores
the result tagged with the current mtime and clock. -/
def get_or_calc_indicadores (st : CacheState α β) (dashboardId : Nat) (mode : String)
    (arquivoMtime : Int) (agoraUtc : Int) (fresh : α) : α × CacheState α β :=
  let key := (dashboardId, mode)
  match lookupCache st key with
  | some entry =>
    if entry.arquivo_mtime = arquivoMtime ∧ agoraUtc - entry.timestamp < CACHE_TTL_SECONDS then
      (entry.indicadores, st)
    else
      (fresh, storeCache st key ⟨fresh, arquivoMtime, agoraUtc⟩)
  | none => (fresh, storeCache st key ⟨fresh, arquivoMtime, agoraUtc⟩)

/-! Alert engine (`gerador_alertas.py`, `routes_alertas.py`). -/

/-- Status of an `Alerta` row. -/
inductive AlertaStatus where
  | ativo : AlertaStatus
  | resolvido : AlertaStatus
  | arquivado : AlertaStatus
deriving DecidableEq

/-- The identifying slice of an alert's `detalhes` JSON payload. -/
structure Detalhes where
  valor_identificado : Option String
  telefone : Option String
  tipo_verificacao : Option String
  valor_limite : Option Rat
deriving DecidableEq

/-- An `Alerta` row (the fields the modelled operations read or write). -/
structure Alerta where
  configuracao_alerta_id : Option Nat
  status : AlertaStatus
  criado_em : Int
  resolvido_em : Option Int
  resolvido_por : Option String
  arquivado_em : Option Int
  detalhes : Detalhes
deriving DecidableEq

/-- Embedding of the manual `/resolver/<id>` route
(routes_alertas.py:537-562): sets the status unconditionally. -/
def resolver_route (a : Alerta) (agoraUtc : Int) : Alerta :=
  { a with
    status := .resolvido
    resolvido_em := some agoraUtc
    resolvido_por := some "Sistema" }

/-- Embedding of the manual `/arquivar/<id>` route
(routes_alertas.py:565-581): sets the status unconditionally. -/
def arquivar_route (a : Alerta) (agoraUtc : Int) : Alerta :=
  { a with
    status := .arquivado
    arquivado_em := some agoraUtc }

/-- Embedding of `_resolver_alertas_por_tempo` (routes_alertas.py:42-59):
ages out active alerts of non-auto-resolve configurations created before
the cutoff. -/
def resolver_alertas_por_tempo (alertas : List Alerta) (configsSemAuto : List Nat)
    (limite agoraUtc : Int) : List Alerta :=
  alertas.map (fun a =>
    if a.status = .ativo ∧
        Option.any (fun i => decide (i ∈ configsSemAuto)) a.configuracao_alerta_id = true ∧
        a.criado_em < limite then
      { a with
        status := .resolvido
        resolvido_em := some agoraUtc
        resolvido_por := some "Sistema" }
    else a)

/-- Embedding of `_normalizar_valor_identificado` (gerador_alertas.py:20-25):
strip a trailing `.0` when the preceding characters, with every `-`
removed, are a nonempty digit string. -/
def normalizar_valor_identificado (val : String) : String :=
  let s := trimStr val
  let t := (dropRightStr s 2).data.filter (fun ch => !(ch == '-'))
  if endsWithStr s ".0" && !t.isEmpty && t.all Char.isDigit then dropRightStr s 2 else s

/-- Distinct cells of a column, in first-seen order (`value_counts` keys). -/
def distinctCells (l : List Cell) : List Cell :=
  l.foldl (fun acc c => if c ∈ acc then acc else acc ++ [c]) []

/-- Occurrences of one value in a column (`value_counts` entry /
`Series.get` lookup). -/
def countCell (l : List Cell) (c : Cell) : Nat :=
  l.countP (fun x => x == c)

/-- Python `o or d` for rationals (`0` is falsy). -/
def orRat (o : Option Rat) (d : Rat) : Rat :=
  match o with
  | some q => if q = 0 then d else q
  | none => d

/-- Embedding of the `contar_repetidos` branch of `gerar_alerta_generico`
(gerador_alertas.py:1007-1063), restricted to the identifying keys it
stores: over the already-filtered data column, each value occurring more
than once (and at least `valor_limite` times when one is set) yields an
alert whose `detalhes.valor_identificado` is the normalized value.  The
dedup against currently active alerts is not modelled (an empty active
set is assumed). -/
def gerar_contar_repetidos (df : DF) (colunaDados : String) (valorLimite : Option Rat) :
    List String :=
  let colVals := df.rows.map (fun r => getCell r colunaDados)
  let repetidos := (distinctCells colVals).filter (fun v => decide (1 < countCell colVals v))
  let repetidos2 :=
    match valorLimite with
    | some lim =>
      if lim = 0 then repetidos
      else repetidos.filter (fun v => decide (lim ≤ (countCell colVals v : Rat)))
    | none => repetidos
  repetidos2.map (fun v => normalizar_valor_identificado (cellToStr v))

/-- The `ainda_aciona` recheck of `_resolver_generico`
(gerador_alertas.py:266-279): the stored identifying key is looked up,
as a string, among the raw column values. -/
def resolver_generico_ainda_aciona (colVals : List Cell) (valorId : String)
    (tipoVerif : String) (valorLimite : Option Rat) : Bool :=
  let qtd := countCell colVals (.str valorId)
  if tipoVerif = "contar" ∨ tipoVerif = "contar_repetidos" ∨ tipoVerif = "contem" ∨
      tipoVerif = "igual" then
    decide (orRat valorLimite 1 ≤ (qtd : Rat))
  else if tipoVerif = "contar_unicos" then
    decide (orRat valorLimite 0 ≤ ((distinctCells colVals).length : Rat))
  else false

/-- Embedding of `_resolver_generico` (gerador_alertas.py:245-287), for the
count-like verification kinds: re-filter the data, then resolve each
active alert whose stored key no longer reaches the threshold. -/
def resolver_generico (df : DF) (condicoes : List Cond) (periodoHoras : Nat)
    (colunaDataFiltro : Option String) (colunaDados : String)
    (alertas : List Alerta) (agora agoraUtc : Int) : List Alerta :=
  if colunaDados ∉ df.cols then alertas
  else
    let df_filtrado := filtrar_dataframe df condicoes (some periodoHoras) colunaDataFiltro agora
    let colVals := df_filtrado.rows.map (fun r => getCell r colunaDados)
    alertas.map (fun a =>
      if a.status = .ativo then
        match orOptStr a.detalhes.valor_identificado a.detalhes.telefone with
        | none => a
        | some vid =>
          let tipoVerif := a.detalhes.tipo_verificacao.getD "contar"
          if resolver_generico_ainda_aciona colVals vid tipoVerif a.detalhes.valor_limite then a
          else
            { a with
              status := .resolvido
              resolvido_em := some agoraUtc
              resolvido_por := some "Sistema" }
      else a)

/-- The claim-side notion of a (possibly negative) integer string:
an optional leading `-` followed by at least one digit. -/
def integerStringB (t : String) : Bool :=
  match t.data with
  | [] => false
  | ch :: rest =>
    if ch == '-' then !rest.isEmpty && rest.all Char.isDigit
    else (ch :: rest).all Char.isDigit

/-- Three raw occurrences of the value `123.0` in the alert data column. -/
def dfTel : DF :=
  ⟨["Telefone"], List.replicate 3 [("Telefone", Cell.str "123.0")]⟩

/-- An active alert whose stored identifying key is the normalized `123`. -/
def alertaTel : Alerta :=
  ⟨some 1, .ativo, 0, none, none, none, ⟨some "123", none, some "contar_repetidos", some 2⟩⟩

/-- The claim's left-to-right fold over `(connector, mask)` pairs: the first
mask seeds the accumulator, later masks update it per their connector. -/
def claimFoldMask : List (String × List Bool) → List Bool
  | [] => []
  | m0 :: rest => rest.foldl (fun acc cm => (acc.zip cm.2).map (fun p => connStep cm.1 p.1 p.2)) m0.2

/-- Concrete dataset used by witnesses. -/
def dfC1 : DF :=
  ⟨["A", "B"],
   [[("A", .str "x"), ("B", .str "1")],
    [("A", .str "y"), ("B", .str "2")],
    [("A", .str "x"), ("B", .str "3")]]⟩

/-- Concrete condition chain with an explicit connector. -/
def condsC1 : List Cond :=
  [⟨some "A", some "==", "x", none⟩, ⟨some "B", some "==", "2", some "or"⟩]

/-- Concrete percent-meeting-target configuration (comparator `<= 15`). -/
def cfgPM : IndConfig :=
  ⟨some "Meta", [], some "percentual_meta", some "I", some "F", none, none, none, none,
   none, some 15, some "<=", none, none, false⟩

/-- Concrete dataset with 20 valid time-deltas, 14 within 15 minutes. -/
def dfPM : DF :=
  ⟨["I", "F"],
   List.replicate 14 [("I", Cell.dt 0), ("F", Cell.dt 600)] ++
   List.replicate 6 [("I", Cell.dt 0), ("F", Cell.dt 1200)]⟩

/-- Concrete variation configuration: a 2-hour-window count indicator. -/
def cfgV : IndConfig :=
  ⟨some "V", [], some "contagem", none, none, none, some 2, some "Data", none, none,
   none, none, none, none, false⟩

/-- Concrete dataset for the variation witness. -/
def dfV : DF :=
  ⟨["Data"], [[("Data", .dt 9000)], [("Data", .dt 8000)], [("Data", .dt 3000)]]⟩

/-- Concrete count-kind chart configuration. -/
def cfgC2 : IndConfig :=
  ⟨some "Contagem", [], some "contagem", none, none, none, none, some "Data", none, none,
   none, none, none, none, false⟩

/-- Concrete one-row dataset for the chart claims. -/
def dfC2 : DF :=
  ⟨["Data"], [[("Data", .dt 49000)]]⟩

section ClaimProofs

attribute [local semireducible] Rat.mul Rat.inv Rat.add Rat.sub

/-! Shared lemmas. -/

theorem filtrar_ultimas_horas_cols (df : DF) (c : String) (h : Nat) (a : Int) :
    (filtrar_ultimas_horas df c h a).cols = df.cols := by
  unfold filtrar_ultimas_horas
  split <;> rfl

theorem seqFiltrar_cols (l : List (String × String × String)) (df : DF) :
    (seqFiltrar df l).cols = df.cols := by
  induction l generalizing df with
  | nil => rfl
  | cons t rest ih => simpa [seqFiltrar] using ih _

theorem filtrar_dataframe_cols (df : DF) (cs : List Cond) (f : Option Nat)
    (c : Option String) (a : Int) (op : String) :
    (filtrar_dataframe df cs f c a op).cols = df.cols := by
  simp only [filtrar_dataframe]
  repeat' split
  all_goals first
    | rfl
    | exact filtrar_ultimas_horas_cols _ _ _ _
    | (rw [seqFiltrar_cols]; try first | rfl | exact filtrar_ultimas_horas_cols _ _ _ _)

theorem temConector_validar_ne {cs : List Cond} (h : temConector cs = true) :
    validarCondicoes cs ≠ [] := by
  induction cs with
  | nil => simp [temConector] at h
  | cons c rest ih =>
    rw [temConector, List.any_cons, Bool.or_eq_true] at h
    rcases h with h | h
    · rw [Bool.and_eq_true] at h
      obtain ⟨h1, _⟩ := h
      cases hc : c.coluna with
      | none => rw [hc] at h1; simp [truthyStr] at h1
      | some s =>
        rw [hc] at h1
        have hs : s ≠ "" := by
          intro hs
          rw [hs] at h1
          simp [truthyStr] at h1
        simp [validarCondicoes, hc, hs]
    · have := ih h
      simp only [validarCondicoes, List.filterMap_cons] at *
      cases c.coluna with
      | none => simpa using this
      | some s =>
        by_cases hs : s = ""
        · simpa [hs] using this
        · simp [hs]

/-- C1: with an explicit connector present, `filtrar_dataframe` evaluates
the validated chain as a left-to-right fold over row masks seeded by the
first condition's mask (its own connector ignored), updating by
`acc AND m` / `acc OR m` / `(NOT m) OR (m AND acc)`; for 2-condition
chains, `and` is the intersection of the two masks, `or` their union, and
`if` is `(NOT gate) OR (gate AND rest)` with the second condition as gate. -/
theorem filtrar_fold_conectores :
    (∀ (df : DF) (condicoes : List Cond) (agora : Int),
      temConector condicoes = true →
      (filtrar_dataframe df condicoes none none agora).cols = df.cols ∧
      (filtrar_dataframe df condicoes none none agora).rows =
        filterByMask df.rows
          (claimFoldMask ((validarCondicoes condicoes).map (fun c => (c.conector, maskDe df c))))) ∧
    (∀ (df : DF) (c1 c2 : Cond) (agora : Int) (a b : String),
      c1.coluna = some a → a ≠ "" → c2.coluna = some b → b ≠ "" →
      (c2.conector = some "and" →
        (filtrar_dataframe df [c1, c2] none none agora).rows =
          filterByMask df.rows
            (((aplicar_condicao df a (c1.operador.getD "==") c1.valor).zip
              (aplicar_condicao df b (c2.operador.getD "==") c2.valor)).map
              (fun p => p.1 && p.2))) ∧
      (c2.conector = some "or" →
        (filtrar_dataframe df [c1, c2] none none agora).rows =
          filterByMask df.rows
            (((aplicar_condicao df a (c1.operador.getD "==") c1.valor).zip
              (aplicar_condicao df b (c2.operador.getD "==") c2.valor)).map
              (fun p => p.1 || p.2))) ∧
      (c2.conector = some "if" →
        (filtrar_dataframe df [c1, c2] none none agora).rows =
          filterByMask df.rows
            (((aplicar_condicao df a (c1.operador.getD "==") c1.valor).zip
              (aplicar_condicao df b (c2.operador.getD "==") c2.valor)).map
              (fun p => (!p.2) || (p.2 && p.1))))) := by
  constructor
  · intro df condicoes agora hconn
    refine ⟨filtrar_dataframe_cols _ _ _ _ _ _, ?_⟩
    have hne : condicoes ≠ [] := by
      intro h
      rw [h] at hconn
      simp [temConector] at hconn
    unfold filtrar_dataframe
    simp only [truthyNat, truthyStr, Bool.false_and, Bool.and_false, if_neg Bool.false_ne_true,
      List.isEmpty_eq_true, if_neg hne, hconn, if_pos]
    cases hval : validarCondicoes condicoes with
    | nil => exact absurd hval (temConector_validar_ne hconn)
    | cons c0 rest =>
      simp only [List.map_cons, claimFoldMask, List.foldl_map, zipConn, maskDe]
  · intro df c1 c2 agora a b h1 ha h2 hb
    have hval : ∀ conn : String, c2.conector = some conn → conn ≠ "" →
        validarCondicoes [c1, c2] =
          [⟨a, c1.operador.getD "==", c1.valor, toLowerStr (orStr c1.conector "and")⟩,
           ⟨b, c2.operador.getD "==", c2.valor, toLowerStr conn⟩] := by
      intro conn hconn hconne
      simp [validarCondicoes, h1, ha, h2, hb, hconn, orStr, hconne]
    have hgen : ∀ conn : String, c2.conector = some conn → conn ≠ "" →
        (filtrar_dataframe df [c1, c2] none none agora).rows =
          filterByMask df.rows
            (zipConn (toLowerStr conn) (aplicar_condicao df a (c1.operador.getD "==") c1.valor)
              (aplicar_condicao df b (c2.operador.getD "==") c2.valor)) := by
      intro conn hconn hconne
      have htc : temConector [c1, c2] = true := by
        simp only [temConector, List.any_cons, List.any_nil, Bool.or_false, Bool.or_eq_true,
          Bool.and_eq_true]
        right
        constructor
        · rw [h2]; simp [truthyStr, hb]
        · rw [hconn]; simp [truthyStr, hconne]
      unfold filtrar_dataframe
      simp only [truthyNat, truthyStr, Bool.false_and, Bool.and_false, if_neg Bool.false_ne_true,
        List.isEmpty_eq_true, htc, if_pos]
      rw [if_neg (by simp), hval conn hconn hconne]
      simp [maskDe]
    refine ⟨?_, ?_, ?_⟩
    · intro hconn
      rw [hgen "and" hconn (by decide)]
      rfl
    · intro hconn
      rw [hgen "or" hconn (by decide)]
      rfl
    · intro hconn
      rw [hgen "if" hconn (by decide)]
      rfl

/-- Witness for the connector-fold theorem at a concrete dataset. -/
theorem filtrar_fold_conectores_witness :
    temConector condsC1 = true ∧
    (filtrar_dataframe dfC1 condsC1 none none 0).rows =
      filterByMask dfC1.rows
        (claimFoldMask ((validarCondicoes condsC1).map (fun c => (c.conector, maskDe dfC1 c)))) ∧
    (filtrar_dataframe dfC1
        [⟨some "A", some "==", "x", none⟩, ⟨some "B", some "==", "3", some "and"⟩]
        none none 0).rows =
      filterByMask dfC1.rows
        (((aplicar_condicao dfC1 "A" "==" "x").zip (aplicar_condicao dfC1 "B" "==" "3")).map
          (fun p => p.1 && p.2)) :=
  ⟨by decide,
   (filtrar_fold_conectores.1 dfC1 condsC1 0 (by decide)).2,
   (filtrar_fold_conectores.2 dfC1 ⟨some "A", some "==", "x", none⟩
     ⟨some "B", some "==", "3", some "and"⟩ 0 "A" "B" rfl (by decide) rfl (by decide)).1 rfl⟩

theorem lookup_store (st : CacheState α β) (k : Nat × String) (e : CacheEntry α) :
    lookupCache (storeCache st k e) k = some e := by
  simp [lookupCache, storeCache]

/-- C3: `get_or_calc_indicadores` returns the cached list exactly when the
stored entry's dataset mtime equals the current one and its age is under
the 5-minute TTL; a second call within the TTL with an unchanged mtime
returns the value stored by the first; `invalidate_cache` unconditionally
clears both memo tables, so the next call recomputes. -/
theorem cache_hit_ttl_invalidate :
    (∀ (α β : Type) (st : CacheState α β) (id : Nat) (mode : String) (mtime now : Int)
      (fresh : α) (entry : CacheEntry α),
      lookupCache st (id, mode) = some entry →
      ((entry.arquivo_mtime = mtime ∧ now - entry.timestamp < CACHE_TTL_SECONDS) →
        get_or_calc_indicadores st id mode mtime now fresh = (entry.indicadores, st)) ∧
      (¬(entry.arquivo_mtime = mtime ∧ now - entry.timestamp < CACHE_TTL_SECONDS) →
        get_or_calc_indicadores st id mode mtime now fresh =
          (fresh, storeCache st (id, mode) ⟨fresh, mtime, now⟩))) ∧
    (∀ (α β : Type) (st : CacheState α β) (id : Nat) (mode : String) (mtime now : Int)
      (fresh : α),
      lookupCache st (id, mode) = none →
      get_or_calc_indicadores st id mode mtime now fresh =
        (fresh, storeCache st (id, mode) ⟨fresh, mtime, now⟩)) ∧
    (∀ (α β : Type) (st : CacheState α β) (id : Nat) (mode : String) (mtime now1 : Int)
      (fresh1 : α) (now2 : Int) (fresh2 : α),
      now2 - now1 < CACHE_TTL_SECONDS →
      (get_or_calc_indicadores
        (get_or_calc_indicadores (invalidate_cache st) id mode mtime now1 fresh1).2
        id mode mtime now2 fresh2).1 = fresh1) ∧
    (∀ (α β : Type) (st : CacheState α β),
      invalidate_cache st = (⟨[], []⟩ : CacheState α β)) ∧
    (∀ (α β : Type) (st : CacheState α β) (id : Nat) (mode : String) (mtime now : Int)
      (fresh : α),
      (get_or_calc_indicadores (invalidate_cache st) id mode mtime now fresh).1 = fresh) := by
  have hempty : ∀ (α β : Type) (k : Nat × String),
      lookupCache (⟨[], []⟩ : CacheState α β) k = none := by
    intro α β k
    simp [lookupCache]
  refine ⟨?_, ?_, ?_, ?_, ?_⟩
  · intro α β st id mode mtime now fresh entry hl
    constructor
    · intro hcond
      simp only [get_or_calc_indicadores, hl, if_pos hcond]
    · intro hcond
      simp only [get_or_calc_indicadores, hl, if_neg hcond]
  · intro α β st id mode mtime now fresh hl
    simp only [get_or_calc_indicadores, hl]
  · intro α β st id mode mtime now1 fresh1 now2 fresh2 httl
    have h1 : get_or_calc_indicadores (invalidate_cache st) id mode mtime now1 fresh1 =
        (fresh1, storeCache (⟨[], []⟩ : CacheState α β) (id, mode) ⟨fresh1, mtime, now1⟩) := by
      simp only [get_or_calc_indicadores, invalidate_cache]
      rw [hempty α β (id, mode)]
    rw [h1]
    simp only [get_or_calc_indicadores]
    rw [lookup_store (⟨[], []⟩ : CacheState α β) (id, mode) ⟨fresh1, mtime, now1⟩]
    simp [httl]
  · intro α β st
    rfl
  · intro α β st id mode mtime now fresh
    simp only [get_or_calc_indicadores, invalidate_cache]
    rw [hempty α β (id, mode)]

/-- Witness for the cache theorem: store then hit within the TTL. -/
theorem cache_hit_ttl_invalidate_witness :
    (200 : Int) - 100 < CACHE_TTL_SECONDS ∧
    (get_or_calc_indicadores
      (get_or_calc_indicadores (invalidate_cache (⟨[], []⟩ : CacheState Nat Nat))
        1 "lista" 10 100 42).2
      1 "lista" 10 200 7).1 = 42 :=
  ⟨by decide, cache_hit_ttl_invalidate.2.2.1 Nat Nat ⟨[], []⟩ 1 "lista" 10 100 42 200 7 (by decide)⟩

/-- C7: for a time-delta-to-now indicator with a non-empty set of valid
`now − start` deltas after filtering, the reported value is the maximum of
the valid deltas in the requested unit (worst case), min/max/median of the
same deltas are also reported, and rows whose start column fails date
parsing are dropped from the aggregate (only `dt` cells contribute). -/
theorem diferenca_ate_agora_pior_caso
    (config : IndConfig) (df : DF) (agora : Int)
    (htipo : config.tipo_calculo = some "diferenca_ate_agora")
    (hci : truthyStr config.coluna_data_inicio = true)
    (df_f : DF)
    (hdf : df_f = dedupSeOcorrencia (orStr config.contagem_por "linhas") config.coluna_ocorrencia
      (filtrar_dataframe df config.condicoes config.filtro_ultimas_horas
        config.coluna_data_filtro agora))
    (hcol : config.coluna_data_inicio.getD "" ∈ df_f.cols)
    (valid : List Rat)
    (hvalid : valid = (df_f.rows.filterMap
        (fun r => cellToDT (getCell r (config.coluna_data_inicio.getD "")))).map
      (fun t => convUnidade (config.unidade.getD "minutos") ((agora - t : Int) : Rat)))
    (hne : valid ≠ []) :
    (calcular_indicador config df agora).valor = some (listMax valid) ∧
    (calcular_indicador config df agora).minimo = some (listMin valid) ∧
    (calcular_indicador config df agora).maximo = some (listMax valid) ∧
    (calcular_indicador config df agora).mediana = some (listMedian valid) ∧
    (calcular_indicador config df agora).erro = none := by
  have hcalc : calcular_diferenca_ate_agora df_f (config.coluna_data_inicio.getD "")
      (config.unidade.getD "minutos") agora = valid := by
    rw [hvalid]
    unfold calcular_diferenca_ate_agora
    rw [if_neg (by simpa using hcol)]
  have hrows : ¬(df_f.rows = []) := by
    intro h
    apply hne
    rw [hvalid, h]
    rfl
  simp only [calcular_indicador]
  rw [← hdf]
  rw [if_neg hrows]
  simp only [htipo, Option.getD_some, ite_true, ite_false]
  simp only [hci, Bool.not_true]
  rw [if_neg (by simp)]
  rw [hcalc]
  rw [if_neg hne]
  exact ⟨rfl, rfl, rfl, rfl, rfl⟩

/-- Witness for the time-delta-to-now theorem: three shipments aged 600,
1200 and 3000 seconds give max 50, min 10, median 20 minutes. -/
theorem diferenca_ate_agora_pior_caso_witness :
    (calcular_indicador
      ⟨some "Pendentes", [], some "diferenca_ate_agora", some "Inicio", none, none, none,
        none, none, none, none, none, none, none, false⟩
      ⟨["Inicio"], [[("Inicio", .dt 2400)], [("Inicio", .na)], [("Inicio", .dt 1800)],
        [("Inicio", .dt 0)]]⟩
      3000).valor = some 50 ∧
    (calcular_indicador
      ⟨some "Pendentes", [], some "diferenca_ate_agora", some "Inicio", none, none, none,
        none, none, none, none, none, none, none, false⟩
      ⟨["Inicio"], [[("Inicio", .dt 2400)], [("Inicio", .na)], [("Inicio", .dt 1800)],
        [("Inicio", .dt 0)]]⟩
      3000).mediana = some 20 := by
  have h := diferenca_ate_agora_pior_caso
    ⟨some "Pendentes", [], some "diferenca_ate_agora", some "Inicio", none, none, none,
      none, none, none, none, none, none, none, false⟩
    ⟨["Inicio"], [[("Inicio", .dt 2400)], [("Inicio", .na)], [("Inicio", .dt 1800)],
      [("Inicio", .dt 0)]]⟩
    3000 rfl (by decide) _ rfl (by decide) [10, 20, 50] (by decide) (by decide)
  exact ⟨by rw [h.1]; decide, by rw [h.2.2.2.1]; decide⟩

/-- C6: for a percent-meeting-target indicator over a non-empty set of
valid time-deltas, the computed value is 100 times the fraction of valid
deltas satisfying `delta ≤ threshold` (or `delta ≥ threshold` when the
comparator is `>=`), rounded to 2 decimals on the 0-100 scale; in
particular 14 of 20 valid deltas within the threshold give 70. -/
theorem percentual_meta_fracao
    (config : IndConfig) (df : DF) (agora : Int) (meta : Rat)
    (htipo : config.tipo_calculo = some "percentual_meta")
    (hci : truthyStr config.coluna_data_inicio = true)
    (hcf : truthyStr config.coluna_data_fim = true)
    (hmeta : config.meta_valor = some meta)
    (df_f : DF)
    (hdf : df_f = dedupSeOcorrencia (orStr config.contagem_por "linhas") config.coluna_ocorrencia
      (filtrar_dataframe df config.condicoes config.filtro_ultimas_horas
        config.coluna_data_filtro agora))
    (hrows : df_f.rows ≠ [])
    (valid : List Rat)
    (hvalid : valid = (calcular_diferenca_tempo df_f (config.coluna_data_inicio.getD "")
      (config.coluna_data_fim.getD "")
      (if config.unidade.getD "minutos" ≠ "" ∧ config.unidade.getD "minutos" ≠ "%" then
        config.unidade.getD "minutos" else "minutos")).filterMap id)
    (hne : valid ≠ [])
    (dentro : Nat)
    (hdentro : dentro = if trimStr (orStr config.meta_operador "<=") = ">=" then
        valid.countP (fun d => decide (meta ≤ d))
      else valid.countP (fun d => decide (d ≤ meta))) :
    (calcular_indicador config df agora).valor =
      some (roundTo 2 (100 * (dentro : Rat) / (valid.length : Rat))) ∧
    (calcular_indicador config df agora).unidade = some "%" ∧
    (valid.length = 20 → dentro = 14 →
      (calcular_indicador config df agora).valor = some 70) := by
  have hkey : (calcular_indicador config df agora).valor =
      some (roundTo 2 (100 * (dentro : Rat) / (valid.length : Rat))) ∧
      (calcular_indicador config df agora).unidade = some "%" := by
    simp only [calcular_indicador]
    rw [← hdf]
    rw [if_neg hrows]
    simp only [htipo, Option.getD_some, ite_true, ite_false]
    simp only [hci, hcf, Bool.and_self, Bool.not_true]
    rw [if_neg (by simp)]
    simp only [hmeta]
    rw [← hvalid]
    rw [if_neg hne]
    by_cases h1 : trimStr (orStr config.meta_operador "<=") = ">="
    · rw [hdentro, if_pos h1]
      rw [if_pos (Or.inr h1), h1]
      rw [if_neg (by simp)]
      exact ⟨rfl, rfl⟩
    · rw [hdentro, if_neg h1]
      by_cases h2 : trimStr (orStr config.meta_operador "<=") = "<="
      · rw [if_pos (Or.inl h2), h2]
        rw [if_pos rfl]
        exact ⟨rfl, rfl⟩
      · rw [if_neg (by simp [h1, h2] : ¬(trimStr (orStr config.meta_operador "<=") = "<=" ∨
          trimStr (orStr config.meta_operador "<=") = ">="))]
        rw [if_pos rfl]
        exact ⟨rfl, rfl⟩
  refine ⟨hkey.1, hkey.2, ?_⟩
  intro hlen hdent
  rw [hkey.1, hlen, hdent]
  norm_num
  decide

/-- Witness for the percent-meeting-target theorem: 14 of 20 deltas within
the threshold give 70.0. -/
theorem percentual_meta_fracao_witness :
    (calcular_indicador cfgPM dfPM 0).valor = some 70 := by
  have h := percentual_meta_fracao cfgPM dfPM 0 15 rfl (by decide) (by decide) rfl _ rfl
    (by decide) _ rfl (by decide) _ rfl
  exact h.2.2 (by decide) (by decide)

theorem dedupSeOcorrencia_cols (cp : String) (oc : Option String) (d : DF) :
    (dedupSeOcorrencia cp oc d).cols = d.cols := by
  unfold dedupSeOcorrencia
  cases oc with
  | none => rfl
  | some s =>
    dsimp only
    split <;> rfl

theorem calc_ind_empty (config : IndConfig) (df : DF) (agora : Int)
    (h : (dedupSeOcorrencia (orStr config.contagem_por "linhas") config.coluna_ocorrencia
      (filtrar_dataframe df config.condicoes config.filtro_ultimas_horas
        config.coluna_data_filtro agora)).rows = []) :
    calcular_indicador config df agora =
      { nome := config.nome.getD "Indicador", tipo_calculo := none, valor := none,
        total_registros := 0, registros_filtrados := 0, minimo := none, maximo := none,
        mediana := none, unidade := none,
        erro := some "Nenhum registro encontrado após aplicar filtros" } := by
  simp only [calcular_indicador]
  rw [if_pos h]

/-- C8: the indicator calculator is total (the embedding is a function) and
degrades to structured error results: an empty filtered set yields the
explicit empty-filter error with a null value and `registros_filtrados = 0`;
an unrecognized calculation kind, or a missing required column, yields a
result with a non-null error and a null value rather than an exception. -/
theorem calcular_indicador_erro_estruturado
    (config : IndConfig) (df : DF) (agora : Int) :
    ((dedupSeOcorrencia (orStr config.contagem_por "linhas") config.coluna_ocorrencia
        (filtrar_dataframe df config.condicoes config.filtro_ultimas_horas
          config.coluna_data_filtro agora)).rows = [] →
      calcular_indicador config df agora =
        { nome := config.nome.getD "Indicador", tipo_calculo := none, valor := none,
          total_registros := 0, registros_filtrados := 0, minimo := none, maximo := none,
          mediana := none, unidade := none,
          erro := some "Nenhum registro encontrado após aplicar filtros" }) ∧
    (config.tipo_calculo.getD "diferenca_tempo" ∉
        (["diferenca_tempo", "diferenca_ate_agora", "contagem", "soma", "media",
          "percentual_meta"] : List String) →
      (calcular_indicador config df agora).valor = none ∧
      (calcular_indicador config df agora).erro.isSome = true) ∧
    (config.tipo_calculo.getD "diferenca_tempo" = "diferenca_tempo" →
      ¬(truthyStr config.coluna_data_inicio = true ∧ truthyStr config.coluna_data_fim = true) →
      (calcular_indicador config df agora).valor = none ∧
      (calcular_indicador config df agora).erro.isSome = true) ∧
    (config.tipo_calculo.getD "diferenca_tempo" = "diferenca_ate_agora" →
      truthyStr config.coluna_data_inicio = false →
      (calcular_indicador config df agora).valor = none ∧
      (calcular_indicador config df agora).erro.isSome = true) ∧
    ((config.tipo_calculo.getD "diferenca_tempo" = "soma" ∨
      config.tipo_calculo.getD "diferenca_tempo" = "media") →
      (truthyStr config.coluna_data_fim = false ∨
        config.coluna_data_fim.getD "" ∉ df.cols) →
      (calcular_indicador config df agora).valor = none ∧
      (calcular_indicador config df agora).erro.isSome = true) ∧
    (config.tipo_calculo.getD "diferenca_tempo" = "percentual_meta" →
      (¬(truthyStr config.coluna_data_inicio = true ∧
          truthyStr config.coluna_data_fim = true) ∨ config.meta_valor = none) →
      (calcular_indicador config df agora).valor = none ∧
      (calcular_indicador config df agora).erro.isSome = true) := by
  by_cases hrows : (dedupSeOcorrencia (orStr config.contagem_por "linhas")
      config.coluna_ocorrencia
      (filtrar_dataframe df config.condicoes config.filtro_ultimas_horas
        config.coluna_data_filtro agora)).rows = []
  · rw [calc_ind_empty config df agora hrows]
    exact ⟨fun _ => rfl, fun _ => ⟨rfl, rfl⟩, fun _ _ => ⟨rfl, rfl⟩, fun _ _ => ⟨rfl, rfl⟩,
      fun _ _ => ⟨rfl, rfl⟩, fun _ _ => ⟨rfl, rfl⟩⟩
  · have hcols : (dedupSeOcorrencia (orStr config.contagem_por "linhas")
        config.coluna_ocorrencia
        (filtrar_dataframe df config.condicoes config.filtro_ultimas_horas
          config.coluna_data_filtro agora)).cols = df.cols := by
      rw [dedupSeOcorrencia_cols, filtrar_dataframe_cols]
    refine ⟨fun h => absurd h hrows, ?_, ?_, ?_, ?_, ?_⟩
    · intro htipo
      obtain ⟨n1, n2, n3, n4, n5, n6⟩ :
          ¬(config.tipo_calculo.getD "diferenca_tempo" = "diferenca_tempo") ∧
          ¬(config.tipo_calculo.getD "diferenca_tempo" = "diferenca_ate_agora") ∧
          ¬(config.tipo_calculo.getD "diferenca_tempo" = "contagem") ∧
          ¬(config.tipo_calculo.getD "diferenca_tempo" = "soma") ∧
          ¬(config.tipo_calculo.getD "diferenca_tempo" = "media") ∧
          ¬(config.tipo_calculo.getD "diferenca_tempo" = "percentual_meta") := by
        simpa [not_or] using htipo
      simp only [calcular_indicador]
      rw [if_neg hrows, if_neg n1, if_neg n2, if_neg n3, if_neg n4, if_neg n5, if_neg n6]
      exact ⟨rfl, rfl⟩
    · intro h hcc
      have hb : (truthyStr config.coluna_data_inicio &&
          truthyStr config.coluna_data_fim) = false := by
        cases h1 : truthyStr config.coluna_data_inicio <;>
          cases h2 : truthyStr config.coluna_data_fim <;> simp_all
      simp only [calcular_indicador]
      rw [if_neg hrows]
      simp only [h, hb]
      exact ⟨rfl, rfl⟩
    · intro h hci
      simp only [calcular_indicador]
      rw [if_neg hrows]
      simp only [h, hci]
      exact ⟨rfl, rfl⟩
    · intro h hcf
      rcases h with h | h <;>
      · cases hb : truthyStr config.coluna_data_fim with
        | false =>
          simp only [calcular_indicador]
          rw [if_neg hrows]
          simp only [h, hb]
          exact ⟨rfl, rfl⟩
        | true =>
          have hnm : config.coluna_data_fim.getD "" ∉ df.cols := by
            rcases hcf with hcf | hcf
            · rw [hb] at hcf; exact absurd hcf (by simp)
            · exact hcf
          simp only [calcular_indicador]
          rw [if_neg hrows]
          simp only [h, hb]
          rw [hcols, if_pos hnm, if_pos hnm]
          exact ⟨rfl, rfl⟩
    · intro h hcc
      rcases hcc with hcc | hcc
      · have hb : (truthyStr config.coluna_data_inicio &&
            truthyStr config.coluna_data_fim) = false := by
          cases h1 : truthyStr config.coluna_data_inicio <;>
            cases h2 : truthyStr config.coluna_data_fim <;> simp_all
        simp only [calcular_indicador]
        rw [if_neg hrows]
        simp only [h, hb]
        exact ⟨rfl, rfl⟩
      · cases hb : (truthyStr config.coluna_data_inicio &&
            truthyStr config.coluna_data_fim) with
        | false =>
          simp only [calcular_indicador]
          rw [if_neg hrows]
          simp only [h, hb]
          exact ⟨rfl, rfl⟩
        | true =>
          simp only [calcular_indicador]
          rw [if_neg hrows]
          simp only [h, hb, hcc]
          exact ⟨rfl, rfl⟩

/-- Witness for the structured-error theorem: a filter matching nothing
yields the empty-filter error result, and an unknown calculation kind
yields a non-null error with a null value. -/
theorem calcular_indicador_erro_estruturado_witness :
    calcular_indicador
      ⟨some "Vazio", [⟨some "A", some "==", "zzz", none⟩], some "contagem", none, none,
        none, none, none, none, none, none, none, none, none, false⟩ dfC1 0 =
      { nome := "Vazio", tipo_calculo := none, valor := none, total_registros := 0,
        registros_filtrados := 0, minimo := none, maximo := none, mediana := none,
        unidade := none, erro := some "Nenhum registro encontrado após aplicar filtros" } ∧
    ((calcular_indicador
      ⟨some "Estranho", [], some "desconhecido", none, none,
        none, none, none, none, none, none, none, none, none, false⟩ dfC1 0).valor = none ∧
     (calcular_indicador
      ⟨some "Estranho", [], some "desconhecido", none, none,
        none, none, none, none, none, none, none, none, none, false⟩ dfC1 0).erro.isSome = true) :=
  ⟨(calcular_indicador_erro_estruturado
      ⟨some "Vazio", [⟨some "A", some "==", "zzz", none⟩], some "contagem", none, none,
        none, none, none, none, none, none, none, none, none, false⟩ dfC1 0).1 (by decide),
   (calcular_indicador_erro_estruturado
      ⟨some "Estranho", [], some "desconhecido", none, none,
        none, none, none, none, none, none, none, none, none, false⟩ dfC1 0).2.1 (by decide)⟩

/-- C5: the variation calculator compares two equal-width trailing windows
of `w` hours (`w` = the config's trailing-filter hours, default 2), the
current one ending now and the prior one ending exactly one hour earlier;
when both window values exist and the prior is nonzero it returns
`(current − prior) / |prior| · 100` rounded to 1 decimal with the trend
label inverted exactly when `tendencia_inversa` is set, and a null
variation otherwise. -/
theorem variacao_janelas_formula
    (config : IndConfig) (df : DF) (agora : Int) (c : String)
    (hc : config.coluna_data_filtro = some c)
    (hcne : c ≠ "")
    (hccol : c ∈ df.cols)
    (w : Nat) (hw : w = orNat config.filtro_ultimas_horas 2)
    (dA dP : DF)
    (hdA : dA = dedupSeOcorrencia (orStr config.contagem_por "linhas") config.coluna_ocorrencia
      (filtrar_dataframe (windowDF df c (agora - (w : Int) * 3600) agora)
        config.condicoes none none agora))
    (hdP : dP = dedupSeOcorrencia (orStr config.contagem_por "linhas") config.coluna_ocorrencia
      (filtrar_dataframe (windowDF df c (agora - 3600 - (w : Int) * 3600) (agora - 3600))
        config.condicoes none none agora)) :
    calcular_variacao_percentual config df agora =
      (match valorJanela config dA, valorJanela config dP with
       | some a, some p =>
         if p ≠ 0 then
           { variacao_percentual := some (roundTo 1 ((a - p) / |p| * 100))
             tendencia := some (tendenciaDe config.tendencia_inversa a p)
             valor_atual := some a
             valor_anterior := some p }
         else ⟨none, some "neutra", none, none⟩
       | _, _ => ⟨none, some "neutra", none, none⟩) := by
  subst hw hdA hdP
  simp only [calcular_variacao_percentual, hc]
  rw [if_pos ⟨hcne, hccol⟩]

/-- Witness for the variation theorem: 3 rows in the current window versus
1 in the prior window give +200.0% with a positive trend. -/
theorem variacao_janelas_formula_witness :
    calcular_variacao_percentual cfgV dfV 10000 = ⟨some 200, some "positiva", some 3, some 1⟩ := by
  have h := variacao_janelas_formula cfgV dfV 10000 "Data" rfl (by decide) (by decide)
    _ rfl _ _ rfl rfl
  rw [h]
  decide

/-- C10: the time-series generator returns the empty list — not a grid of
null points — when the condition chain leaves no row, when the configured
chart date column is absent, or when no remaining row has a parseable
timestamp in that column. -/
theorem gerar_grafico_vazio
    (config : IndConfig) (horas intervalo : Nat) (df : DF) (agora : Int) :
    ((filtrar_dataframe df config.condicoes none none agora).rows = [] →
      gerar_dados_grafico config horas intervalo df agora = []) ∧
    (orOptStr config.coluna_data_filtro config.coluna_data_inicio = none →
      gerar_dados_grafico config horas intervalo df agora = []) ∧
    (∀ c : String, orOptStr config.coluna_data_filtro config.coluna_data_inicio = some c →
      c ∉ df.cols →
      gerar_dados_grafico config horas intervalo df agora = []) ∧
    (∀ c : String, orOptStr config.coluna_data_filtro config.coluna_data_inicio = some c →
      (∀ r ∈ (filtrar_dataframe df config.condicoes none none agora).rows,
        cellToDT (getCell r c) = none) →
      gerar_dados_grafico config horas intervalo df agora = []) := by
  refine ⟨?_, ?_, ?_, ?_⟩
  · intro h
    simp only [gerar_dados_grafico]
    rw [if_pos h]
  · intro h
    by_cases hrows : (filtrar_dataframe df config.condicoes none none agora).rows = []
    · simp only [gerar_dados_grafico]
      rw [if_pos hrows]
    · simp only [gerar_dados_grafico, h]
      rw [if_neg hrows]
  · intro c hc hnot
    by_cases hrows : (filtrar_dataframe df config.condicoes none none agora).rows = []
    · simp only [gerar_dados_grafico]
      rw [if_pos hrows]
    · simp only [gerar_dados_grafico, hc]
      rw [if_neg hrows, filtrar_dataframe_cols df config.condicoes none none agora "and",
        if_pos hnot]
  · intro c hc hdt
    by_cases hrows : (filtrar_dataframe df config.condicoes none none agora).rows = []
    · simp only [gerar_dados_grafico]
      rw [if_pos hrows]
    · by_cases hcol : c ∉ df.cols
      · simp only [gerar_dados_grafico, hc]
        rw [if_neg hrows, filtrar_dataframe_cols df config.condicoes none none agora "and",
          if_pos hcol]
      · have hnil : (filtrar_dataframe df config.condicoes none none agora).rows.filterMap
            (fun r => (cellToDT (getCell r c)).map (fun t => (r, t))) = [] := by
          rw [List.filterMap_eq_nil_iff]
          intro r hr
          rw [hdt r hr]
          rfl
        simp only [gerar_dados_grafico, hc]
        rw [if_neg hrows, filtrar_dataframe_cols df config.condicoes none none agora "and",
          if_neg hcol, hnil, if_pos rfl]

/-- Witness for the empty-series theorem: a filter that matches no row
yields the empty series. -/
theorem gerar_grafico_vazio_witness :
    (filtrar_dataframe dfC1 [⟨some "A", some "==", "zzz", none⟩] none none 0).rows = [] ∧
    gerar_dados_grafico
      ⟨some "Vazio", [⟨some "A", some "==", "zzz", none⟩], some "contagem", none, none,
        none, none, some "Data", none, none, none, none, none, none, false⟩
      12 60 dfC1 0 = [] :=
  ⟨by decide,
   (gerar_grafico_vazio
      ⟨some "Vazio", [⟨some "A", some "==", "zzz", none⟩], some "contagem", none, none,
        none, none, some "Data", none, none, none, none, none, none, false⟩
      12 60 dfC1 0).1 (by decide)⟩

/-- Counterexample to the 13-point claim: with `hours = 12` and
`intervalMinutes = 60` the generated series has 14 points (the grid runs
from the aligned `now − 12h` to the last point at or before
`now + 60min`, both ends included), and an empty bucket's value is `none`
rather than the count 0. -/
theorem grafico_13_pontos_contraexemplo :
    (gerar_dados_grafico cfgC2 12 60 dfC2 50000).length = 14 ∧
    ¬((gerar_dados_grafico cfgC2 12 60 dfC2 50000).length = 13) ∧
    ((gerar_dados_grafico cfgC2 12 60 dfC2 50000).head?.map Ponto.valor) = some none := by
  decide

/-- C2 (amended): for a count-kind indicator with `hours = 12` and
`intervalMinutes = 60` over data with at least one parseable timestamp,
the series has exactly 14 points, stepped hourly from the start aligned
down to a round hour at `now − 12h` up to the last grid point at or before
`now + 60min`; a point counts the rows whose timestamp falls in its closed
one-hour bucket `[t − 60min, t]`, its value being that count when positive
and null when the bucket is empty. -/
theorem grafico_contagem_14_pontos
    (config : IndConfig) (df : DF) (agora : Int) (c : String)
    (htipo : config.tipo_calculo = some "contagem")
    (hna : orStr config.contagem_por "linhas" ≠ "ocorrencia")
    (hc : orOptStr config.coluna_data_filtro config.coluna_data_inicio = some c)
    (hccol : c ∈ df.cols)
    (hrows : ¬((filtrar_dataframe df config.condicoes none none agora).rows = []))
    (rowsDT : List (Row × Int))
    (hrdt : rowsDT = (filtrar_dataframe df config.condicoes none none agora).rows.filterMap
      (fun r => (cellToDT (getCell r c)).map (fun t => (r, t))))
    (hne : ¬(rowsDT = [])) :
    gerar_dados_grafico config 12 60 df agora =
      (List.range 14).map (fun i =>
        let ponto := alignMinutes (agora - 43200) 60 + (i : Int) * 3600
        let k := (rowsDT.filter (fun rt => decide (ponto - 3600 ≤ rt.2) &&
          decide (rt.2 ≤ ponto))).length
        { timestamp := ponto, valor := if k = 0 then none else some (k : Rat),
          registros := k }) := by
  simp only [gerar_dados_grafico, htipo, hc, Option.getD_some]
  rw [if_neg hrows, filtrar_dataframe_cols df config.condicoes none none agora "and",
    if_neg (not_not_intro hccol), ← hrdt, if_neg hne]
  rw [show ((12 : Nat) : Int) * 3600 = 43200 from by norm_num,
    show ((60 : Nat) : Int) * 60 = 3600 from by norm_num]
  rw [if_pos (by norm_num : 0 < 60 ∧ 60 ≤ 60)]
  have hA : alignMinutes (agora - 43200) 60 =
      agora - 43200 - (agora - 43200) % 3600 := by
    simp only [alignMinutes]
    omega
  have hn : (if alignMinutes (agora - 43200) 60 ≤ agora + 3600 then
      ((agora + 3600 - alignMinutes (agora - 43200) 60) / 3600).toNat + 1 else 0) = 14 := by
    rw [hA]
    rw [if_pos (by omega)]
    omega
  rw [hn]
  apply List.map_congr_left
  intro i _
  dsimp only
  simp only [if_true]
  rw [if_neg (show ¬(orStr config.contagem_por "linhas" = "ocorrencia" ∧
      truthyStr config.coluna_ocorrencia = true ∧
      config.coluna_ocorrencia.getD "" ∈ df.cols) from fun hd => hna hd.1)]
  simp only [List.length_map]
  simp

/-- Witness for the 14-point theorem at a concrete dataset and clock. -/
theorem grafico_contagem_14_pontos_witness :
    (gerar_dados_grafico cfgC2 12 60 dfC2 50000).length = 14 := by
  have h := grafico_contagem_14_pontos cfgC2 dfC2 50000 "Data" rfl (by decide) rfl
    (by decide) (by decide) [([("Data", Cell.dt 49000)], 49000)] (by decide) (by decide)
  rw [h]
  decide

/-- Counterexample to the normalization/dedup claim: `1-2.0` is stripped to
`1-2` although `1-2` is not a (possibly negative) integer string, and an
alert generated for the raw value `123.0` (stored under the normalized key
`123`) is resolved by the generic auto-resolution pass even though the raw
value still occurs 3 ≥ 2 times, because the stored key is looked up among
the unnormalized column values. -/
theorem normalizar_chave_contraexemplo :
    normalizar_valor_identificado "1-2.0" = "1-2" ∧
    integerStringB "1-2" = false ∧
    ("1-2" : String) ≠ "1-2.0" ∧
    gerar_contar_repetidos dfTel "Telefone" (some 2) = ["123"] ∧
    (resolver_generico dfTel [] 24 none "Telefone" [alertaTel] 0 0).map Alerta.status =
      [AlertaStatus.resolvido] ∧
    countCell (dfTel.rows.map (fun r => getCell r "Telefone")) (.str "123.0") = 3 := by
  decide

/-- C4 (amended): the dedup normalization strips a trailing `.0` exactly
when the preceding characters, after deleting every `-`, form a nonempty
digit string (in particular every integer string is stripped, but so are
strings like `1-2`); generation stores this normalized key in the detail
payload, while the generic resolution pass counts occurrences of the
stored key among the raw column values without normalizing them, so a raw
value is matched only when it is literally equal to the stored string. -/
theorem normalizar_chave_dedup :
    (∀ s : String, normalizar_valor_identificado s =
      (if endsWithStr (trimStr s) ".0" = true ∧
          ((dropRightStr (trimStr s) 2).data.filter (fun ch => !(ch == '-'))) ≠ [] ∧
          ((dropRightStr (trimStr s) 2).data.filter (fun ch => !(ch == '-'))).all
            Char.isDigit = true
        then dropRightStr (trimStr s) 2 else trimStr s)) ∧
    (∀ t : String, integerStringB t = true →
      (t.data.filter (fun ch => !(ch == '-'))) ≠ [] ∧
      (t.data.filter (fun ch => !(ch == '-'))).all Char.isDigit = true) ∧
    (∀ (df : DF) (colD : String) (per : Nat) (lim : Rat) (agora agoraUtc : Int)
      (a : Alerta) (key : String),
      a.status = .ativo → a.detalhes.valor_identificado = some key → key ≠ "" →
      a.detalhes.tipo_verificacao = some "contar_repetidos" →
      a.detalhes.valor_limite = some lim → lim ≠ 0 → colD ∈ df.cols →
      (resolver_generico df [] per none colD [a] agora agoraUtc).map Alerta.status =
        [if lim ≤ (countCell (df.rows.map (fun r => getCell r colD)) (.str key) : Rat)
          then AlertaStatus.ativo else AlertaStatus.resolvido]) ∧
    (∀ (df : DF) (colD : String) (lim : Rat), lim ≠ 0 →
      gerar_contar_repetidos df colD (some lim) =
        ((distinctCells (df.rows.map (fun r => getCell r colD))).filter (fun v =>
          decide (1 < countCell (df.rows.map (fun r => getCell r colD)) v) &&
          decide (lim ≤ (countCell (df.rows.map (fun r => getCell r colD)) v : Rat)))).map
          (fun v => normalizar_valor_identificado (cellToStr v))) := by
  refine ⟨?_, ?_, ?_, ?_⟩
  · intro s
    simp only [normalizar_valor_identificado]
    by_cases h : endsWithStr (trimStr s) ".0" = true ∧
        ((dropRightStr (trimStr s) 2).data.filter (fun ch => !(ch == '-'))) ≠ [] ∧
        ((dropRightStr (trimStr s) 2).data.filter (fun ch => !(ch == '-'))).all
          Char.isDigit = true
    · rw [if_pos h]
      obtain ⟨h1, h2, h3⟩ := h
      rw [if_pos]
      simp only [h1, h3, Bool.and_true, Bool.true_and, Bool.not_eq_true']
      simpa using h2
    · rw [if_neg h]
      rw [if_neg]
      intro hb
      apply h
      simp only [Bool.and_eq_true, Bool.not_eq_true'] at hb
      refine ⟨hb.1.1, ?_, hb.2⟩
      simpa [List.isEmpty_iff] using hb.1.2
  · intro t ht
    have hdig : ∀ l : List Char, l.all Char.isDigit = true →
        l.filter (fun ch => !(ch == '-')) = l := by
      intro l hl
      rw [List.filter_eq_self]
      intro a ha
      have hda := (List.all_eq_true.mp hl) a ha
      simp only [Bool.not_eq_true', beq_eq_false_iff_ne, ne_eq]
      intro heq
      rw [heq] at hda
      exact absurd hda (by decide)
    simp only [integerStringB] at ht
    cases hl : t.data with
    | nil => rw [hl] at ht; simp at ht
    | cons ch rest =>
      rw [hl] at ht
      dsimp only at ht
      by_cases hch : (ch == '-') = true
      · rw [if_pos hch] at ht
        simp only [Bool.and_eq_true, Bool.not_eq_true'] at ht
        have hre : rest.filter (fun c => !(c == '-')) = rest := hdig rest ht.2
        have hcheq : ch = '-' := by simpa using hch
        simp only [List.filter_cons, hcheq]
        simp only [show ((('-' : Char) == '-') = true) from rfl, Bool.not_true, ite_false,
          cond_false]
        rw [hre]
        constructor
        · simpa [List.isEmpty_iff] using ht.1
        · exact ht.2
      · rw [if_neg hch] at ht
        have : (ch :: rest).filter (fun c => !(c == '-')) = ch :: rest := hdig _ ht
        rw [this]
        exact ⟨by simp, ht⟩
  · intro df colD per lim agora agoraUtc a key ha hvid hkey htv hlim hlim0 hcol
    have hfd : filtrar_dataframe df ([] : List Cond) (some per) none agora = df := by
      simp [filtrar_dataframe, truthyStr]
    simp only [resolver_generico]
    rw [if_neg (not_not_intro hcol), hfd]
    simp only [List.map_cons, List.map_nil, ha, hvid, htv, hlim]
    have horo : orOptStr (some key) a.detalhes.telefone = some key := by
      simp [orOptStr, truthyStr, hkey]
    rw [horo]
    simp only [resolver_generico_ainda_aciona, Option.getD_some]
    have horr : orRat (some lim) 1 = lim := by
      simp [orRat, hlim0]
    rw [horr]
    by_cases hq : lim ≤ (countCell (df.rows.map (fun r => getCell r colD)) (.str key) : Rat)
    · simp [hq, ha]
    · simp [hq]
  · intro df colD lim hlim0
    simp only [gerar_contar_repetidos]
    rw [if_neg hlim0]
    rw [List.filter_filter]
    simp [Bool.and_comm]

/-- Witness for the amended normalization/dedup theorem: the stored key
`123` is looked up among the raw values `123.0` and misses, so the alert
is resolved; integer strings pass the code's strip predicate. -/
theorem normalizar_chave_dedup_witness :
    (resolver_generico dfTel [] 24 none "Telefone" [alertaTel] 0 0).map Alerta.status =
      [if (2 : Rat) ≤
          (countCell (dfTel.rows.map (fun r => getCell r "Telefone")) (.str "123") : Rat)
        then AlertaStatus.ativo else AlertaStatus.resolvido] ∧
    (("-42".data.filter (fun ch => !(ch == '-'))) ≠ [] ∧
      ("-42".data.filter (fun ch => !(ch == '-'))).all Char.isDigit = true) :=
  ⟨normalizar_chave_dedup.2.2.1 dfTel "Telefone" 24 2 0 0 alertaTel "123" rfl rfl (by decide)
    rfl rfl (by decide) (by decide),
   normalizar_chave_dedup.2.1 "-42" (by decide)⟩

theorem zipMapSnd {α β : Type} (f : α → β) (l : List α) :
    ∀ p ∈ l.zip (l.map f), p.2 = f p.1 := by
  induction l with
  | nil => intro p hp; simp at hp
  | cons a t ih =>
    intro p hp
    simp only [List.map_cons, List.zip_cons_cons, List.mem_cons] at hp
    rcases hp with h | h
    · rw [h]
    · exact ih p h

theorem zipSelfEq {α : Type} (l : List α) : ∀ p ∈ l.zip l, p.2 = p.1 := by
  induction l with
  | nil => intro p hp; simp at hp
  | cons a t ih =>
    intro p hp
    simp only [List.zip_cons_cons, List.mem_cons] at hp
    rcases hp with h | h
    · rw [h]
    · exact ih p h

/-- Counterexample to the terminal-state claim: the manual archive route
applied to a resolved alert moves it to archived, and the manual resolve
route applied to an archived alert moves it to resolved — both operations
set the status without checking that the alert is active. -/
theorem estado_terminal_contraexemplo :
    (⟨some 1, .resolvido, 0, some 5, some "Sistema", none,
      ⟨none, none, none, none⟩⟩ : Alerta).status = .resolvido ∧
    (arquivar_route ⟨some 1, .resolvido, 0, some 5, some "Sistema", none,
      ⟨none, none, none, none⟩⟩ 10).status = .arquivado ∧
    (⟨some 1, .arquivado, 0, none, none, some 5,
      ⟨none, none, none, none⟩⟩ : Alerta).status = .arquivado ∧
    (resolver_route ⟨some 1, .arquivado, 0, none, none, some 5,
      ⟨none, none, none, none⟩⟩ 10).status = .resolvido := by
  decide

/-- C9 (amended): the system's automatic passes (generic auto-resolution
and time-based resolution) transition only currently active alerts, and
only from active to resolved, leaving every non-active alert untouched;
the manual resolve and archive routes, however, set the status to
resolved / archived unconditionally, so a resolved alert can still be
archived and an archived alert resolved through them. -/
theorem transicoes_status_alertas :
    (∀ (alertas : List Alerta) (cfgs : List Nat) (limite agoraUtc : Int),
      ∀ p ∈ alertas.zip (resolver_alertas_por_tempo alertas cfgs limite agoraUtc),
        (p.2.status ≠ p.1.status → p.1.status = .ativo ∧ p.2.status = .resolvido) ∧
        (p.1.status ≠ .ativo → p.2 = p.1)) ∧
    (∀ (df : DF) (condicoes : List Cond) (per : Nat) (colF : Option String) (colD : String)
      (alertas : List Alerta) (agora agoraUtc : Int),
      ∀ p ∈ alertas.zip (resolver_generico df condicoes per colF colD alertas agora agoraUtc),
        (p.2.status ≠ p.1.status → p.1.status = .ativo ∧ p.2.status = .resolvido) ∧
        (p.1.status ≠ .ativo → p.2 = p.1)) ∧
    (∀ (a : Alerta) (t : Int), (resolver_route a t).status = .resolvido) ∧
    (∀ (a : Alerta) (t : Int), (arquivar_route a t).status = .arquivado) := by
  refine ⟨?_, ?_, fun a t => rfl, fun a t => rfl⟩
  · intro alertas cfgs limite agoraUtc p hp
    simp only [resolver_alertas_por_tempo] at hp
    have h2 := zipMapSnd _ alertas p hp
    by_cases hcond : (p.1.status = .ativo ∧
        Option.any (fun i => decide (i ∈ cfgs)) p.1.configuracao_alerta_id = true ∧
        p.1.criado_em < limite)
    · rw [if_pos hcond] at h2
      constructor
      · intro _
        exact ⟨hcond.1, by rw [h2]⟩
      · intro hnact
        exact absurd hcond.1 hnact
    · rw [if_neg hcond] at h2
      constructor
      · intro hne
        exact absurd (congrArg Alerta.status h2) hne
      · intro _
        exact h2
  · intro df condicoes per colF colD alertas agora agoraUtc p hp
    simp only [resolver_generico] at hp
    by_cases hcol : colD ∉ df.cols
    · rw [if_pos hcol] at hp
      have h2 := zipSelfEq alertas p hp
      exact ⟨fun hne => absurd (congrArg Alerta.status h2) hne, fun _ => h2⟩
    · rw [if_neg hcol] at hp
      have h2 := zipMapSnd _ alertas p hp
      by_cases hact : p.1.status = .ativo
      · rw [if_pos hact] at h2
        cases horo : orOptStr p.1.detalhes.valor_identificado p.1.detalhes.telefone with
        | none =>
          rw [horo] at h2
          exact ⟨fun hne => absurd (congrArg Alerta.status h2) hne,
            fun hnact => absurd hact hnact⟩
        | some vid =>
          rw [horo] at h2
          dsimp only at h2
          by_cases hainda : resolver_generico_ainda_aciona
              ((filtrar_dataframe df condicoes (some per) colF agora).rows.map
                (fun r => getCell r colD)) vid
              (p.1.detalhes.tipo_verificacao.getD "contar") p.1.detalhes.valor_limite = true
          · rw [if_pos hainda] at h2
            exact ⟨fun hne => absurd (congrArg Alerta.status h2) hne,
              fun hnact => absurd hact hnact⟩
          · rw [if_neg hainda] at h2
            exact ⟨fun _ => ⟨hact, by rw [h2]⟩, fun hnact => absurd hact hnact⟩
      · rw [if_neg hact] at h2
        exact ⟨fun hne => absurd (congrArg Alerta.status h2) hne, fun _ => h2⟩

/-- Witness for the status-transition theorem: the time-based pass moves an
old active alert of a non-auto-resolve configuration to resolved, and the
manual resolve route sets resolved. -/
theorem transicoes_status_alertas_witness :
    (⟨some 1, AlertaStatus.ativo, 0, none, none, none,
       ⟨none, none, none, none⟩⟩ : Alerta).status = AlertaStatus.ativo ∧
    (⟨some 1, AlertaStatus.resolvido, 0, some 200, some "Sistema", none,
       ⟨none, none, none, none⟩⟩ : Alerta).status = AlertaStatus.resolvido ∧
    (resolver_route ⟨some 1, AlertaStatus.ativo, 0, none, none, none,
       ⟨none, none, none, none⟩⟩ 7).status = AlertaStatus.resolvido :=
  ⟨((transicoes_status_alertas.1
      [⟨some 1, AlertaStatus.ativo, 0, none, none, none, ⟨none, none, none, none⟩⟩]
      [1] 100 200
      (⟨some 1, AlertaStatus.ativo, 0, none, none, none, ⟨none, none, none, none⟩⟩,
       ⟨some 1, AlertaStatus.resolvido, 0, some 200, some "Sistema", none,
        ⟨none, none, none, none⟩⟩)
      (by decide)).1 (by decide)).1,
   ((transicoes_status_alertas.1
      [⟨some 1, AlertaStatus.ativo, 0, none, none, none, ⟨none, none, none, none⟩⟩]
      [1] 100 200
      (⟨some 1, AlertaStatus.ativo, 0, none, none, none, ⟨none, none, none, none⟩⟩,
       ⟨some 1, AlertaStatus.resolvido, 0, some 200, some "Sistema", none,
        ⟨none, none, none, none⟩⟩)
      (by decide)).1 (by decide)).2,
   transicoes_status_alertas.2.2.1
     ⟨some 1, AlertaStatus.ativo, 0, none, none, none, ⟨none, none, none, none⟩⟩ 7⟩

end ClaimProofs

end Pynel
